import Mathlib

/-!
Shallow embedding of `src/pomodoro_logic.py` (class `PomodoroTimer`) and
proofs about its session-controller state machine.

Modelling conventions:
* Python integers are modelled as `Int` (`session_count` as `Nat`: it starts
  at 0 and is only ever incremented, so the two agree).
* Qt signal emissions and thread spawns (`Thread(target=self.run_timer).start()`)
  are modelled as an explicit trace of `Event` values in emission order.
* `time.ctime()` timestamps are an external clock read with no logical
  content; history entries keep only the `type` and `goal` fields the claims
  are about.
* Float division in `update_time` is modelled exactly, in `ℚ`.
* The countdown loop of `run_timer` holds `timer_lock` for its whole body, so
  one loop execution is modelled as an atomic function; successive period
  threads (each `switch_period` spawns the next) are serialized by the lock
  and modelled by iterating that function.
-/

namespace PomodoroLogic

/-- History entry appended to `session_history`; the source stores
`{"type": ..., "timestamp": time.ctime(), "goal": ...}` and the opaque
timestamp is omitted. -/
structure HistoryEntry where
  type : String
  goal : String
deriving Repr, DecidableEq

/-- Observable effects of the controller, in emission order: the five Qt
signals of the class, plus `spawnRunTimer` marking
`Thread(target=self.run_timer).start()`. -/
inductive Event where
  | timeUpdate (timeStr : String) (fraction : ℚ)
  | finish
  | sessionChange (period : String)
  | resetGoal
  | notifyUser
  | spawnRunTimer
deriving Repr, DecidableEq

/-- Python raises `TypeError` when a call omits a required positional
argument; `toggle` triggers exactly that by calling `self.start_timer()`
with no `goal`. -/
inductive PyError where
  | missingArgument (fn : String) (arg : String)
deriving Repr, DecidableEq

/-- Mutable state of a `PomodoroTimer` instance (`__init__`, lines 34-42). -/
structure PomodoroTimer where
  work_duration : Int
  short_break_duration : Int
  long_break_duration : Int
  is_running : Bool
  goal : String
  session_history : List HistoryEntry
  current_time : Int
  is_work_period : Bool
  session_count : Nat
deriving Repr, DecidableEq

/-- Break duration selected by the expression
`self.short_break_duration if self.session_count % 4 != 0 else self.long_break_duration`,
which appears verbatim in `switch_period` (line 131) and `update_time`
(line 155). -/
def current_break_duration (t : PomodoroTimer) : Int :=
  if t.session_count % 4 ≠ 0 then t.short_break_duration else t.long_break_duration

/-- Zero-padded decimal of width 2, as Python's `f"{n:02d}"`. -/
def pad2 (n : Int) : String :=
  if 0 ≤ n ∧ n < 10 then "0" ++ toString n else toString n

/-- Time string `f"{mins:02d}:{secs:02d}"` with `mins, secs = divmod(ct, 60)`
(Python `divmod` is floor division, `Int.ediv`/`Int.emod` for a positive
divisor). -/
def format_time (ct : Int) : String :=
  pad2 (ct / 60) ++ ":" ++ pad2 (ct % 60)

/-- Fraction computed in `update_time` (lines 152-156): for work periods
`(work_duration - current_time) / work_duration`, otherwise
`1 - current_time / current_break_duration`. -/
def time_fraction (t : PomodoroTimer) : ℚ :=
  if t.is_work_period then
    ((t.work_duration : ℚ) - (t.current_time : ℚ)) / (t.work_duration : ℚ)
  else
    1 - (t.current_time : ℚ) / (current_break_duration t : ℚ)

/-- Signal emitted by `update_time` (lines 146-157); the method reads state
and emits `update_signal`, mutating nothing. -/
def update_time (t : PomodoroTimer) : Event :=
  Event.timeUpdate (format_time t.current_time) (time_fraction t)

/-- Method `reset` (lines 54-61): reassigns `current_time`, `session_count`,
`is_work_period` and calls `update_time`. -/
def reset (t : PomodoroTimer) : PomodoroTimer × List Event :=
  let t1 : PomodoroTimer :=
    { t with current_time := t.work_duration, session_count := 0, is_work_period := true }
  (t1, [update_time t1])

/-- Method `set_durations` (lines 63-75): replaces the three durations, then
calls `reset`. -/
def set_durations (t : PomodoroTimer) (w s l : Int) : PomodoroTimer × List Event :=
  reset { t with work_duration := w, short_break_duration := s, long_break_duration := l }

/-- Constructor `__init__` (lines 23-43): field initialisation followed by
`self.reset()` (whose emitted event escapes to nobody; the state is kept). -/
def pomodoroInit (w s l : Int) : PomodoroTimer :=
  (reset { work_duration := w, short_break_duration := s, long_break_duration := l,
           is_running := false, goal := "", session_history := [],
           current_time := 0, is_work_period := true, session_count := 0 }).1

/-- Method `start_timer` (lines 85-102): sets `is_running` and `goal`,
appends a `Work` history entry carrying the (new) goal, emits
`session_change_signal("Work")`, calls `update_time`, and spawns a
`run_timer` thread. -/
def start_timer (t : PomodoroTimer) (goal : String) : PomodoroTimer × List Event :=
  let t1 : PomodoroTimer :=
    { t with is_running := true, goal := goal,
             session_history := t.session_history ++ [{ type := "Work", goal := goal }] }
  (t1, [Event.sessionChange "Work", update_time t1, Event.spawnRunTimer])

/-- Method `toggle` (lines 77-83): flips `is_running`; if now running it
evaluates `self.start_timer()` — but `start_timer(self, goal)` requires a
positional `goal`, so Python raises `TypeError` at the call site, before any
of `start_timer`'s body runs and after `is_running` was already flipped.
The raised error is returned explicitly. -/
def toggle (t : PomodoroTimer) : PomodoroTimer × List Event × Option PyError :=
  let t1 : PomodoroTimer := { t with is_running := !t.is_running }
  if t1.is_running then
    (t1, [], some (PyError.missingArgument "start_timer" "goal"))
  else
    (t1, [], none)

/-- Method `switch_period` (lines 120-143): flips the period flag,
increments `session_count`, appends a history entry of the new type carrying
the current goal, selects the new period's duration, emits `update_time`,
spawns the next `run_timer` thread if still running, emits
`session_change_signal`, and emits `reset_goal_signal` when the new period is
work. -/
def switch_period (t : PomodoroTimer) : PomodoroTimer × List Event :=
  let t1 : PomodoroTimer :=
    { t with is_work_period := !t.is_work_period, session_count := t.session_count + 1 }
  let session_type : String := if t1.is_work_period then "Work" else "Break"
  let t2 : PomodoroTimer :=
    { t1 with session_history := t1.session_history ++ [{ type := session_type, goal := t1.goal }] }
  let t3 : PomodoroTimer :=
    { t2 with current_time :=
        if !t2.is_work_period then current_break_duration t2 else t2.work_duration }
  (t3, [update_time t3]
        ++ (if t3.is_running then [Event.spawnRunTimer] else [])
        ++ [Event.sessionChange session_type]
        ++ (if t3.is_work_period then [Event.resetGoal] else []))

/-- Body of one iteration of the `while` loop in `run_timer` (lines 110-115):
after the one-second sleep, decrement `current_time`, emit
`notify_user_signal` if the new time is 60 in a break, then `update_time`. -/
def tick (t : PomodoroTimer) : PomodoroTimer × List Event :=
  let t1 : PomodoroTimer := { t with current_time := t.current_time - 1 }
  (t1, (if t1.current_time = 60 ∧ t1.is_work_period = false then [Event.notifyUser] else [])
        ++ [update_time t1])

/-- Fuel-indexed unfolding of the `while self.current_time > 0 and self.is_running`
loop. Each iteration decrements `current_time` by exactly one and leaves
`is_running` untouched, so fuel `current_time.toNat` (used by `run_ticks`)
makes this identical to the unbounded loop. -/
def run_loop : Nat → PomodoroTimer → PomodoroTimer × List Event
  | 0, t => (t, [])
  | fuel + 1, t =>
    if 0 < t.current_time ∧ t.is_running then
      ((run_loop fuel (tick t).1).1, (tick t).2 ++ (run_loop fuel (tick t).1).2)
    else (t, [])

/-- The countdown `while` loop of `run_timer`, run to its exit (the loop
guard already fails at fuel 0 when the fuel is `current_time.toNat`). -/
def run_ticks (t : PomodoroTimer) : PomodoroTimer × List Event :=
  run_loop t.current_time.toNat t

/-- Method `run_timer` (lines 105-118), one thread body executed under
`timer_lock`: the countdown loop, then on natural expiry
(`current_time == 0 and is_running`) the `finish_signal` and
`switch_period`. The thread `switch_period` spawns blocks on the lock until
this one exits; its execution is a separate application of this function. -/
def run_timer (t : PomodoroTimer) : PomodoroTimer × List Event :=
  let t1 := (run_ticks t).1
  if t1.current_time = 0 ∧ t1.is_running then
    ((switch_period t1).1, (run_ticks t).2 ++ [Event.finish] ++ (switch_period t1).2)
  else (t1, (run_ticks t).2)

/-- Serialized execution of `n` successive `run_timer` threads (each period's
thread spawns the next inside `switch_period`; `timer_lock` serializes
them). -/
def run_periods : Nat → PomodoroTimer → PomodoroTimer × List Event
  | 0, t => (t, [])
  | n + 1, t =>
    ((run_periods n (run_timer t).1).1,
      (run_timer t).2 ++ (run_periods n (run_timer t).1).2)

/-- Iterated `switch_period`, keeping only the state (period transitions in
sequence). -/
def switch_n : Nat → PomodoroTimer → PomodoroTimer
  | 0, t => t
  | n + 1, t => switch_n n (switch_period t).1

/-- Method `format_duration` (lines 160-171). -/
def format_duration (duration : Int) : String :=
  format_time duration

/-- Duration of the active period: `work_duration` during work, otherwise the
break duration `switch_period`/`update_time` select for the current
`session_count`. -/
def active_duration (t : PomodoroTimer) : Int :=
  if t.is_work_period then t.work_duration else current_break_duration t

/-- Spec invariant `0 ≤ currentTime ≤` the active period's duration. -/
def time_inv (t : PomodoroTimer) : Prop :=
  0 ≤ t.current_time ∧ t.current_time ≤ active_duration t

instance (t : PomodoroTimer) : Decidable (time_inv t) := by
  unfold time_inv; infer_instance

/-- Fractions carried by the `timeUpdate` events of a trace, in order. -/
def fractions (evs : List Event) : List ℚ :=
  evs.filterMap (fun e => match e with
    | Event.timeUpdate _ f => some f
    | _ => none)

/-- Number of `notifyUser` events in a trace. -/
def notifyCount (evs : List Event) : Nat :=
  evs.countP (fun e => match e with
    | Event.notifyUser => true
    | _ => false)

/-- Timer with the default durations, as constructed at startup. -/
def defaultTimer : PomodoroTimer :=
  pomodoroInit 1500 300 900

/-- Timer with durations `w = 2, s = 1, l = 3` just after `start_timer("goal")`
(the spec's simulation example scaled to seconds). -/
def claim1Timer : PomodoroTimer :=
  (start_timer (pomodoroInit 2 1 3) "goal").1

/-- Default-duration timer paused mid-countdown: `is_running` false and
`0 < current_time = 847 < work_duration`, with one history entry from the
earlier start. -/
def pausedTimer : PomodoroTimer :=
  { work_duration := 1500, short_break_duration := 300, long_break_duration := 900,
    is_running := false, goal := "write spec",
    session_history := [{ type := "Work", goal := "write spec" }],
    current_time := 847, is_work_period := true, session_count := 0 }

/-- Default-duration timer currently running a work period started with goal
"first goal". -/
def runningTimer : PomodoroTimer :=
  { work_duration := 1500, short_break_duration := 300, long_break_duration := 900,
    is_running := true, goal := "first goal",
    session_history := [{ type := "Work", goal := "first goal" }],
    current_time := 1200, is_work_period := true, session_count := 0 }

/-- Running work period with `work_duration = current_time = 2`. -/
def shortWorkTimer : PomodoroTimer :=
  { work_duration := 2, short_break_duration := 1, long_break_duration := 3,
    is_running := true, goal := "g", session_history := [],
    current_time := 2, is_work_period := true, session_count := 0 }

/-- Running break period of 62 seconds (one tick after the start the time is
61, then 60 — the notify tick). -/
def breakTimer62 : PomodoroTimer :=
  { work_duration := 100, short_break_duration := 62, long_break_duration := 900,
    is_running := true, goal := "g", session_history := [],
    current_time := 62, is_work_period := false, session_count := 1 }

/-- Running break period of 30 seconds: `current_time` never passes through
60, so the notify tick cannot happen. -/
def breakTimer30 : PomodoroTimer :=
  { work_duration := 100, short_break_duration := 30, long_break_duration := 900,
    is_running := true, goal := "g", session_history := [],
    current_time := 30, is_work_period := false, session_count := 1 }

/-- Small positive-duration timer used to instantiate the invariant. -/
def smallTimer : PomodoroTimer :=
  pomodoroInit 3 4 5

/-- Events of the loop iteration that moves `current_time` down to `c`
(notify first when `c = 60` in a break, then the time update). -/
def tick_events_at (t : PomodoroTimer) (c : Int) : List Event :=
  (if c = 60 ∧ t.is_work_period = false then [Event.notifyUser] else [])
    ++ [Event.timeUpdate (format_time c) (time_fraction { t with current_time := c })]

/-- Closed form of the event trace of a full countdown from `current_time = n`:
the blocks for `c = n-1, n-2, ..., 0` in order. -/
def ticks_events (t : PomodoroTimer) : Nat → List Event
  | 0 => []
  | n + 1 => tick_events_at t ((n : Nat) : Int) ++ ticks_events t n

lemma ticks_events_time_irrel (wd sd ld : Int) (ir : Bool) (g : String)
    (hist : List HistoryEntry) (x y : Int) (wp : Bool) (sc : Nat) (n : Nat) :
    ticks_events ⟨wd, sd, ld, ir, g, hist, x, wp, sc⟩ n
      = ticks_events ⟨wd, sd, ld, ir, g, hist, y, wp, sc⟩ n := by
  induction n with
  | zero => rfl
  | succ n ih =>
    simp only [ticks_events, ih]
    rfl

lemma run_loop_not_running (n : Nat) (t : PomodoroTimer) (h : t.is_running = false) :
    run_loop n t = (t, []) := by
  cases n with
  | zero => rfl
  | succ n => simp [run_loop, h]

/-- With fuel equal to the starting `current_time`, the loop runs exactly that
many iterations and the trace is `ticks_events`. -/
lemma run_loop_run (n : Nat) (wd sd ld : Int) (g : String) (hist : List HistoryEntry)
    (ct : Int) (wp : Bool) (sc : Nat) (hc : ct = (n : Int)) :
    run_loop n ⟨wd, sd, ld, true, g, hist, ct, wp, sc⟩ =
      (⟨wd, sd, ld, true, g, hist, 0, wp, sc⟩,
        ticks_events ⟨wd, sd, ld, true, g, hist, ct, wp, sc⟩ n) := by
  induction n generalizing ct with
  | zero => subst hc; rfl
  | succ n ih =>
    subst hc
    have hpos : (0 : Int) < ((n + 1 : Nat) : Int) := by positivity
    have h1 : ((n + 1 : Nat) : Int) - 1 = ((n : Nat) : Int) := by push_cast; ring
    have ih' := ih ((n : Nat) : Int) rfl
    simp [run_loop, tick, h1, ih', hpos, update_time, ticks_events, tick_events_at,
      ticks_events_time_irrel wd sd ld true g hist ((n : Nat) : Int)
        ((n + 1 : Nat) : Int) wp sc n]

lemma run_ticks_run (t : PomodoroTimer) (hr : t.is_running = true)
    (h0 : 0 ≤ t.current_time) :
    run_ticks t = ({ t with current_time := 0 }, ticks_events t t.current_time.toNat) := by
  obtain ⟨wd, sd, ld, ir, g, hist, ct, wp, sc⟩ := t
  simp only at hr h0
  subst hr
  exact run_loop_run ct.toNat wd sd ld g hist ct wp sc (by omega)

lemma notifyCount_append (a b : List Event) :
    notifyCount (a ++ b) = notifyCount a + notifyCount b :=
  List.countP_append _ _ _

lemma notifyCount_tick_events_at (t : PomodoroTimer) (c : Int) :
    notifyCount (tick_events_at t c)
      = if c = 60 ∧ t.is_work_period = false then 1 else 0 := by
  unfold tick_events_at notifyCount
  split_ifs <;> simp [List.countP_cons]

/-- A full countdown from `n` emits `notify_user_signal` exactly once when it
is a break of more than 60 seconds (the tick reaching `current_time = 60`)
and never otherwise. -/
lemma notifyCount_ticks_events (t : PomodoroTimer) (n : Nat) :
    notifyCount (ticks_events t n)
      = if t.is_work_period = false ∧ 61 ≤ n then 1 else 0 := by
  induction n with
  | zero => simp [ticks_events, notifyCount]
  | succ n ih =>
    simp only [ticks_events, notifyCount_append, notifyCount_tick_events_at, ih]
    by_cases hw : t.is_work_period = false
    · simp only [hw, and_true, true_and]
      have hcast : (((n : Nat) : Int) = 60) ↔ n = 60 := by omega
      split_ifs <;> omega
    · simp [hw]

lemma fractions_append (a b : List Event) :
    fractions (a ++ b) = fractions a ++ fractions b :=
  List.filterMap_append _ _ _

lemma fractions_tick_events_at (t : PomodoroTimer) (c : Int) :
    fractions (tick_events_at t c) = [time_fraction { t with current_time := c }] := by
  unfold tick_events_at fractions
  split_ifs <;> simp

/-- Fractions emitted by a full countdown from `n`: the code's formula
evaluated at `current_time = n-1, n-2, ..., 0` in order. -/
lemma fractions_ticks_events (t : PomodoroTimer) (n : Nat) :
    fractions (ticks_events t n)
      = ((List.range n).reverse).map
          (fun c => time_fraction { t with current_time := ((c : Nat) : Int) }) := by
  induction n with
  | zero => simp [ticks_events, fractions]
  | succ n ih =>
    simp [ticks_events, fractions_append, fractions_tick_events_at, ih, List.range_succ]

lemma time_fraction_antitone (t : PomodoroTimer) (hD : 0 < active_duration t)
    (a b : Int) (hab : a ≤ b) :
    time_fraction { t with current_time := b } ≤ time_fraction { t with current_time := a } := by
  obtain ⟨wd, sd, ld, ir, g, hist, ct, wp, sc⟩ := t
  have habQ : ((a : Int) : ℚ) ≤ ((b : Int) : ℚ) := by exact_mod_cast hab
  simp only [active_duration, current_break_duration, time_fraction] at hD ⊢
  cases wp
  · simp only [Bool.false_eq_true, if_false] at hD ⊢
    have hdQ : (0 : ℚ) < (((if sc % 4 ≠ 0 then sd else ld) : Int) : ℚ) := by exact_mod_cast hD
    gcongr
  · simp only [if_true] at hD ⊢
    have hwQ : (0 : ℚ) < ((wd : Int) : ℚ) := by exact_mod_cast hD
    gcongr

lemma time_fraction_at_zero (t : PomodoroTimer) (hD : 0 < active_duration t) :
    time_fraction { t with current_time := (0 : Int) } = 1 := by
  obtain ⟨wd, sd, ld, ir, g, hist, ct, wp, sc⟩ := t
  simp only [active_duration, current_break_duration, time_fraction] at hD ⊢
  cases wp
  · simp only [Bool.false_eq_true, if_false] at hD ⊢
    simp
  · simp only [if_true] at hD ⊢
    have hwQ : ((wd : Int) : ℚ) ≠ 0 := by
      have : (0 : ℚ) < ((wd : Int) : ℚ) := by exact_mod_cast hD
      exact ne_of_gt this
    simp [div_self hwQ]

lemma pairwise_fractions_range (t : PomodoroTimer) (hD : 0 < active_duration t) (n : Nat) :
    List.Pairwise (· ≤ ·)
      (((List.range n).reverse).map
        (fun c => time_fraction { t with current_time := ((c : Nat) : Int) })) := by
  rw [List.map_reverse, List.pairwise_reverse, List.pairwise_map]
  exact List.Pairwise.imp
    (fun hlt => time_fraction_antitone t hD _ _ (by exact_mod_cast Nat.le_of_lt hlt))
    (List.pairwise_lt_range n)

lemma getLast_fractions_range (t : PomodoroTimer) (n : Nat) (hn : 0 < n) :
    (((List.range n).reverse).map
        (fun c => time_fraction { t with current_time := ((c : Nat) : Int) })).getLast?
      = some (time_fraction { t with current_time := (0 : Int) }) := by
  rw [List.map_reverse, List.getLast?_reverse, List.head?_map]
  cases n with
  | zero => omega
  | succ m => simp [List.range_succ_eq_map]

lemma switch_period_fields (t : PomodoroTimer) :
    (switch_period t).1.is_work_period = !t.is_work_period ∧
    (switch_period t).1.session_count = t.session_count + 1 ∧
    (switch_period t).1.goal = t.goal ∧
    (switch_period t).1.is_running = t.is_running ∧
    (switch_period t).1.work_duration = t.work_duration ∧
    (switch_period t).1.short_break_duration = t.short_break_duration ∧
    (switch_period t).1.long_break_duration = t.long_break_duration :=
  ⟨rfl, rfl, rfl, rfl, rfl, rfl, rfl⟩

lemma switch_period_history (t : PomodoroTimer) :
    (switch_period t).1.session_history = t.session_history ++
      [{ type := if !t.is_work_period then "Work" else "Break", goal := t.goal }] := rfl

lemma switch_n_goal (n : Nat) (u : PomodoroTimer) : (switch_n n u).goal = u.goal := by
  induction n generalizing u with
  | zero => rfl
  | succ n ih => exact (ih (switch_period u).1).trans rfl

lemma switch_n_history_goals (n : Nat) (u : PomodoroTimer) :
    ∃ L : List HistoryEntry, (switch_n n u).session_history = u.session_history ++ L ∧
      L.all (fun e => e.goal == u.goal) = true := by
  induction n generalizing u with
  | zero => exact ⟨[], by simp [switch_n]⟩
  | succ n ih =>
    obtain ⟨L, hL, hall⟩ := ih (switch_period u).1
    refine ⟨{ type := if !u.is_work_period then "Work" else "Break", goal := u.goal } :: L,
      ?_, ?_⟩
    · show (switch_n n (switch_period u).1).session_history = _
      rw [hL, switch_period_history]
      simp
    · simp only [List.all_cons, Bool.and_eq_true]
      exact ⟨by simp, hall⟩

lemma switch_n_parity (n : Nat) (u : PomodoroTimer)
    (h : u.is_work_period = true ↔ u.session_count % 2 = 0) :
    (switch_n n u).is_work_period = true ↔ (switch_n n u).session_count % 2 = 0 := by
  induction n generalizing u with
  | zero => exact h
  | succ n ih =>
    apply ih
    rw [(switch_period_fields u).1, (switch_period_fields u).2.1]
    rcases hw : u.is_work_period with _ | _ <;> rw [hw] at h <;> simp at h ⊢ <;> omega

/-- Claim C6: `reset()` sets `currentTime = workDuration`, `sessionCount = 0`,
`isWorkPeriod = true`, emits exactly one time-update event, and leaves
`isRunning`, `sessionHistory`, the three durations and the stored goal
unchanged. -/
theorem reset_reinitializes_and_preserves_rest (t : PomodoroTimer) :
    (reset t).1.current_time = t.work_duration ∧
    (reset t).1.session_count = 0 ∧
    (reset t).1.is_work_period = true ∧
    (reset t).2 = [Event.timeUpdate (format_time t.work_duration) (time_fraction (reset t).1)] ∧
    (reset t).1.is_running = t.is_running ∧
    (reset t).1.session_history = t.session_history ∧
    (reset t).1.work_duration = t.work_duration ∧
    (reset t).1.short_break_duration = t.short_break_duration ∧
    (reset t).1.long_break_duration = t.long_break_duration ∧
    (reset t).1.goal = t.goal :=
  ⟨rfl, rfl, rfl, rfl, rfl, rfl, rfl, rfl, rfl, rfl⟩

/-- Claim C7: with positive durations, `0 ≤ currentTime ≤` the active
period's duration is established by `reset` and `setDurations` and preserved
by `start`, `toggle`, a (guarded) countdown tick, and a period transition. -/
theorem controller_time_invariant (t : PomodoroTimer)
    (hw : 0 < t.work_duration) (hs : 0 < t.short_break_duration)
    (hl : 0 < t.long_break_duration) :
    time_inv (reset t).1 ∧
    (∀ w s l : Int, 0 < w → 0 < s → 0 < l → time_inv (set_durations t w s l).1) ∧
    (∀ g : String, time_inv t → time_inv (start_timer t g).1) ∧
    (time_inv t → time_inv (toggle t).1) ∧
    (time_inv t → 0 < t.current_time → time_inv (tick t).1) ∧
    time_inv (switch_period t).1 := by
  refine ⟨⟨hw.le, le_of_eq rfl⟩, fun w s l hw' hs' hl' => ⟨hw'.le, le_of_eq rfl⟩,
    fun g h => h, fun h => ?_, fun h hpos => ?_, ?_⟩
  · have heq : (toggle t).1 = { t with is_running := !t.is_running } := by
      cases hb : t.is_running <;> simp [toggle, hb]
    rw [heq]
    exact h
  · obtain ⟨h1, h2⟩ := h
    have hA : active_duration (tick t).1 = active_duration t := rfl
    show 0 ≤ t.current_time - 1 ∧ t.current_time - 1 ≤ active_duration (tick t).1
    rw [hA]
    omega
  · obtain ⟨wd, sd, ld, ir, g, hist, ct, wp, sc⟩ := t
    simp only at hw hs hl
    simp only [time_inv, switch_period, active_duration, current_break_duration]
    cases wp <;> split_ifs <;> simp_all <;> omega

/-- Claim C8: calling `toggle()` on a non-running timer first sets
`is_running` to true and then fails: `self.start_timer()` omits the required
`goal` argument, so Python raises `TypeError` with the state already mutated,
no events emitted and no countdown thread spawned. -/
theorem toggle_from_paused_mutates_then_errors (t : PomodoroTimer)
    (h : t.is_running = false) :
    toggle t = ({ t with is_running := true }, [],
      some (PyError.missingArgument "start_timer" "goal")) := by
  obtain ⟨wd, sd, ld, ir, g, hist, ct, wp, sc⟩ := t
  simp only at h
  subst h
  rfl

/-- Witness for C8 at the concrete paused state. -/
theorem toggle_from_paused_mutates_then_errors_witness :
    toggle pausedTimer = ({ pausedTimer with is_running := true }, [],
      some (PyError.missingArgument "start_timer" "goal")) :=
  toggle_from_paused_mutates_then_errors pausedTimer rfl

/-- Claim C9: starting from `reset` and applying only period transitions,
the period is work exactly when `session_count` is even; hence on entry to a
break `session_count` is odd and `session_count % 4 == 0` never holds when a
break duration is selected. -/
theorem work_iff_even_session_count (t : PomodoroTimer) (n : Nat) :
    ((switch_n n (reset t).1).is_work_period = true
        ↔ (switch_n n (reset t).1).session_count % 2 = 0) ∧
    ((switch_n n (reset t).1).is_work_period = false
        → (switch_n n (reset t).1).session_count % 4 ≠ 0) := by
  have hbase : ((reset t).1).is_work_period = true ↔ ((reset t).1).session_count % 2 = 0 := by
    simp [reset]
  have h := switch_n_parity n (reset t).1 hbase
  refine ⟨h, fun hf => ?_⟩
  have hodd : ¬ ((switch_n n (reset t).1).session_count % 2 = 0) := by
    intro he
    have h1 := h.mpr he
    rw [hf] at h1
    simp at h1
  omega

/-- Witness for C9 after a single transition from reset. -/
theorem work_iff_even_session_count_witness :
    ((switch_n 1 (reset defaultTimer).1).is_work_period = true
        ↔ (switch_n 1 (reset defaultTimer).1).session_count % 2 = 0) ∧
    ((switch_n 1 (reset defaultTimer).1).is_work_period = false
        → (switch_n 1 (reset defaultTimer).1).session_count % 4 ≠ 0) :=
  work_iff_even_session_count defaultTimer 1

/-- Claim C10: `switch_period` never changes the stored goal (it only emits
the goal-reset event, exactly when the new period is work), the history entry
it appends — also for breaks — carries the current goal, and after
`start(g)` every entry appended by later transitions carries `g`. -/
theorem history_entries_carry_latest_goal (t : PomodoroTimer) (g : String) (n : Nat) :
    ((switch_period t).1.goal = t.goal) ∧
    ((switch_period t).1.session_history = t.session_history ++
      [{ type := if !t.is_work_period then "Work" else "Break", goal := t.goal }]) ∧
    ((Event.resetGoal ∈ (switch_period t).2) ↔ (!t.is_work_period) = true) ∧
    (((switch_n n (start_timer t g).1).session_history.drop
        t.session_history.length).all (fun e => e.goal == g) = true) := by
  refine ⟨rfl, switch_period_history t, ?_, ?_⟩
  · rcases hw : t.is_work_period <;> rcases hr : t.is_running <;>
      simp [switch_period, update_time, hw, hr]
  · obtain ⟨L, hL, hall⟩ := switch_n_history_goals n (start_timer t g).1
    have hstart : (start_timer t g).1.session_history
        = t.session_history ++ [{ type := "Work", goal := g }] := rfl
    rw [hL, hstart, List.append_assoc, List.drop_left]
    simp only [List.cons_append, List.nil_append, List.all_cons, Bool.and_eq_true]
    exact ⟨by simp, hall⟩

/-- Witness for C7 at a concrete positive-duration timer. -/
theorem controller_time_invariant_witness :
    time_inv (reset smallTimer).1 ∧
    time_inv (set_durations smallTimer 3 4 5).1 ∧
    time_inv (start_timer smallTimer "g").1 ∧
    time_inv (toggle smallTimer).1 ∧
    time_inv (tick smallTimer).1 ∧
    time_inv (switch_period smallTimer).1 := by
  have h := controller_time_invariant smallTimer (by decide) (by decide) (by decide)
  exact ⟨h.1, h.2.1 3 4 5 (by decide) (by decide) (by decide),
    h.2.2.1 "g" (by decide), h.2.2.2.1 (by decide),
    h.2.2.2.2.1 (by decide) (by decide), h.2.2.2.2.2⟩

/-- Claim C4: over a full countdown the emitted fractions are exactly the
`update_time` formula — `(workDuration - currentTime) / workDuration` for
work, `1 - currentTime / activeBreakDuration` for breaks — evaluated at
`currentTime = n-1, ..., 0`; the sequence is monotonically non-decreasing,
and the tick where `currentTime` reaches 0 emits exactly 1. -/
theorem tick_fractions_formula_and_monotone (t : PomodoroTimer)
    (hr : t.is_running = true) (h0 : 0 ≤ t.current_time)
    (hD : 0 < active_duration t) :
    fractions (run_ticks t).2 =
      ((List.range t.current_time.toNat).reverse).map
        (fun c => time_fraction { t with current_time := ((c : Nat) : Int) }) ∧
    List.Pairwise (· ≤ ·) (fractions (run_ticks t).2) ∧
    (0 < t.current_time → (fractions (run_ticks t).2).getLast? = some 1) := by
  have h2 : (run_ticks t).2 = ticks_events t t.current_time.toNat := by
    rw [run_ticks_run t hr h0]
  rw [h2, fractions_ticks_events]
  refine ⟨rfl, pairwise_fractions_range t hD _, fun hpos => ?_⟩
  rw [getLast_fractions_range t _ (by omega), time_fraction_at_zero t hD]

/-- Witness for C4 on a 2-second work period. -/
theorem tick_fractions_formula_and_monotone_witness :
    fractions (run_ticks shortWorkTimer).2 =
      ((List.range shortWorkTimer.current_time.toNat).reverse).map
        (fun c => time_fraction { shortWorkTimer with current_time := ((c : Nat) : Int) }) ∧
    List.Pairwise (· ≤ ·) (fractions (run_ticks shortWorkTimer).2) ∧
    (0 < shortWorkTimer.current_time →
      (fractions (run_ticks shortWorkTimer).2).getLast? = some 1) :=
  tick_fractions_formula_and_monotone shortWorkTimer rfl (by decide) (by decide)

/-- Claim C5 as amended: a full countdown emits `notify_user_signal` exactly
once when it is a break period starting with more than 60 seconds (the tick
reaching `currentTime = 60`), and never otherwise — in particular never in a
work period and never in a break of 60 seconds or less. -/
theorem notify_fires_iff_break_longer_than_minute (t : PomodoroTimer)
    (hr : t.is_running = true) (h0 : 0 ≤ t.current_time) :
    notifyCount (run_ticks t).2
      = if t.is_work_period = false ∧ 61 ≤ t.current_time then 1 else 0 := by
  have h2 : (run_ticks t).2 = ticks_events t t.current_time.toNat := by
    rw [run_ticks_run t hr h0]
  rw [h2, notifyCount_ticks_events]
  have hiff : (t.is_work_period = false ∧ 61 ≤ t.current_time.toNat)
      ↔ (t.is_work_period = false ∧ 61 ≤ t.current_time) := by
    constructor <;> rintro ⟨hw', hle⟩ <;> exact ⟨hw', by omega⟩
  rw [if_congr hiff rfl rfl]

/-- Witness for the amended C5 on a 62-second break. -/
theorem notify_fires_iff_break_longer_than_minute_witness :
    notifyCount (run_ticks breakTimer62).2
      = if breakTimer62.is_work_period = false ∧ 61 ≤ breakTimer62.current_time
        then 1 else 0 :=
  notify_fires_iff_break_longer_than_minute breakTimer62 rfl (by decide)

/-- Counterexample to C5 as stated: a 30-second break period runs to
completion (`current_time` reaches 0) with zero notify-user emissions, not
exactly one — `current_time` never passes through 60. -/
theorem short_break_emits_no_notification :
    (run_ticks breakTimer30).1.current_time = 0 ∧
    notifyCount (run_ticks breakTimer30).2 = 0 := by
  constructor <;> rfl

/-- Claim C1 fails on the code: with durations `w = 2, s = 1, l = 3`, after
`start` and seven serialized period runs the controller sits in the 4th
break (7th transition, `session_count = 7`, and `7 % 4 ≠ 0`), whose duration
was set to `short_break_duration`, not `long_break_duration`. -/
theorem fourth_break_gets_short_duration :
    (run_periods 7 claim1Timer).1.is_work_period = false ∧
    (run_periods 7 claim1Timer).1.session_count = 7 ∧
    (run_periods 7 claim1Timer).1.current_time = claim1Timer.short_break_duration ∧
    claim1Timer.short_break_duration ≠ claim1Timer.long_break_duration := by
  refine ⟨rfl, rfl, rfl, by decide⟩

/-- Claim C2 fails on the code: on a timer paused mid-countdown, `toggle()`
does not resume — it raises `TypeError` (missing `goal` argument of
`start_timer`), emitting nothing and leaving only `is_running` flipped. -/
theorem toggle_paused_raises_instead_of_resuming :
    pausedTimer.is_running = false ∧
    0 < pausedTimer.current_time ∧
    pausedTimer.current_time < pausedTimer.work_duration ∧
    (toggle pausedTimer).2.2 = some (PyError.missingArgument "start_timer" "goal") ∧
    (toggle pausedTimer).2.1 = [] ∧
    (toggle pausedTimer).1 = { pausedTimer with is_running := true } :=
  ⟨rfl, by decide, by decide, rfl, rfl, rfl⟩

/-- Claim C3 fails on the code: `start_timer` has no already-running guard —
called on a running timer it appends a second `Work` history entry and
spawns another countdown thread. -/
theorem start_while_running_duplicates_entry_and_thread :
    runningTimer.is_running = true ∧
    (start_timer runningTimer "second goal").1.session_history
      = [{ type := "Work", goal := "first goal" },
         { type := "Work", goal := "second goal" }] ∧
    Event.spawnRunTimer ∈ (start_timer runningTimer "second goal").2 := by
  refine ⟨rfl, rfl, ?_⟩
  simp [start_timer]

end PomodoroLogic
